import Mathlib

/-
  Verification of the B+ compiler (src/bplus.js): a shallow embedding of its
  lexer, parser and code generator, with theorems settling the frozen claims.

  Modelling conventions, chosen to mirror JavaScript semantics:
  * `program.charAt(i)` returns the empty string past the end; we model the
    character store as `List Char` and out-of-range access as `none`.
  * Object fields that may be `undefined` (a token's `type` when the symbol
    table lookup misses, a token's `line` for the synthetic start/end tokens)
    are modelled as `Option`.
  * Loops that can run forever in the source (the lexer's main loop does not
    advance on an unrecognized character; the comment-skipping loop runs past
    the end of input when no newline follows) are modelled with fuel: a result
    of `none` means the corresponding JavaScript loop does not terminate
    within that much fuel, and `(forall fuel, result fuel = none)` means it
    never terminates.
  * A thrown `{token, message}` object is `JsErr.parseError`; a JavaScript
    runtime fault (TypeError / ReferenceError) is `JsErr.typeError`.
-/

/-- A lexer token, as built by `token(symbol, type)` in `lex`.  `type` is
`Option String` because the two-character-operator branch looks the type up
with `symbols[c]`, which is `undefined` when the single character `c` is not
itself in the table.  `line` is `Option Nat` because the synthetic start and
end tokens are pushed without a `line` field. -/
structure Token where
  symbol : String
  type : Option String
  line : Option Nat
deriving DecidableEq, Repr

def startTok : Token := ⟨"start", some ("START"), none⟩

def endTok : Token := ⟨"end", some ("END"), none⟩

/-- `isAlpha` from `lex`: character codes 65..90 or 97..122. -/
def isAlphaCh (c : Char) : Bool :=
  decide ((65 ≤ c.toNat ∧ c.toNat ≤ 90) ∨ (97 ≤ c.toNat ∧ c.toNat ≤ 122))

/-- `isNumeric` from `lex`: character codes 48..57. -/
def isNumCh (c : Char) : Bool :=
  decide (48 ≤ c.toNat ∧ c.toNat ≤ 57)

/-- `isAlphaNumeric` from `lex`. -/
def isAlphaNumCh (c : Char) : Bool :=
  isNumCh c || isAlphaCh c

/-- `isNewline` from `lex`. -/
def isNLCh (c : Char) : Bool :=
  decide (c = '\r' ∨ c = '\n')

/-- The `keywords` list from `lex`. -/
def keywords : List String :=
  ["let", "for", "if", "else", "while", "print", "read", "goto"]

/-- The `symbols` map from `lex`, sending each operator or parenthesis lexeme
to its token type; `none` models a key that is absent (JS `undefined`). -/
def symbols : String → Option String
  | "+" => some ("OPERATOR")
  | "-" => some ("OPERATOR")
  | "*" => some ("OPERATOR")
  | "/" => some ("OPERATOR")
  | "%" => some ("OPERATOR")
  | ">" => some ("OPERATOR")
  | "<" => some ("OPERATOR")
  | ">=" => some ("OPERATOR")
  | "<=" => some ("OPERATOR")
  | "==" => some ("OPERATOR")
  | "=" => some ("OPERATOR")
  | ":" => some ("OPERATOR")
  | ".." => some ("OPERATOR")
  | "\x7b" => some ("PAREN")
  | "\x7d" => some ("PAREN")
  | "(" => some ("PAREN")
  | ")" => some ("PAREN")
  | _ => none

/-- ASCII lower-casing of one character, as JS `toLowerCase` acts on the
character set this lexer admits. -/
def lowerCh (c : Char) : Char :=
  if 65 ≤ c.toNat ∧ c.toNat ≤ 90 then Char.ofNat (c.toNat + 32) else c

/-- ASCII upper-casing of one character, as JS `toUpperCase` acts on the
character set this lexer admits. -/
def upperCh (c : Char) : Char :=
  if 97 ≤ c.toNat ∧ c.toNat ≤ 122 then Char.ofNat (c.toNat - 32) else c

/-- `ident.toLowerCase()` over the lexer's ASCII identifiers. -/
def lowerStr (s : String) : String :=
  String.mk (s.data.map lowerCh)

/-- `ident.toUpperCase()` over the lexer's ASCII identifiers. -/
def upperStr (s : String) : String :=
  String.mk (s.data.map upperCh)

/-- `program.charAt(i)` as a string: empty past the end. -/
def charToStr : Option Char → String
  | none => ""
  | some c => String.mk [c]

/-- The comment-skipping loop `while (!isNewline(c)) advance();` from `lex`:
returns the position of the first newline at or after `loc`.  Past the end of
the input `charAt` keeps returning the empty string, which is not a newline,
so the JavaScript loop advances forever; `none` models running out of fuel. -/
def findNewline (prog : List Char) : Nat → Nat → Option Nat
  | _, 0 => none
  | loc, fuel+1 =>
    match prog.get? loc with
    | some ch => if isNLCh ch then some loc else findNewline prog (loc+1) fuel
    | none => findNewline prog (loc+1) fuel

/-- The main loop of `lex`.  One fuel unit is spent per iteration of the outer
`while (loc < program.length)` loop.  Note the faithful reproduction of two
source quirks: the two-character-operator branch stores `symbols[c]` (the type
of the FIRST character only) as the token type, and the if/else chain has no
final else, so an unrecognized character leaves `loc` unchanged and the loop
spins forever. -/
def lexLoop (prog : List Char) : Nat → Nat → Nat → List Token → Option (List Token)
  | 0, _, _, _ => none
  | fuel+1, loc, line, acc =>
    if loc < prog.length then
      match prog.get? loc with
      | none => some (acc ++ [endTok])
      | some ch =>
        if ch = '/' ∧ prog.get? (loc+1) = some '/' then
          match findNewline prog loc fuel with
          | none => none
          | some p =>
            lexLoop prog fuel (p + ((prog.drop p).takeWhile isNLCh).length) line acc
        else if ch = ' ' ∨ ch = '\t' then
          lexLoop prog fuel (loc+1) line acc
        else if isNLCh ch then
          lexLoop prog fuel (loc+1) (line+1) (acc ++ [⟨"newline", some ("NEWLINE"), some line⟩])
        else if isAlphaCh ch then
          let run := (prog.drop loc).takeWhile isAlphaNumCh
          let ident := String.mk run
          let t : Token :=
            if keywords.contains (lowerStr ident) then
              ⟨lowerStr ident, some (upperStr ident), some line⟩
            else
              ⟨ident, some ("IDENTIFIER"), some line⟩
          lexLoop prog fuel (loc + run.length) line (acc ++ [t])
        else if isNumCh ch then
          let run := (prog.drop loc).takeWhile isNumCh
          lexLoop prog fuel (loc + run.length) line (acc ++ [⟨String.mk run, some ("NUMBER"), some line⟩])
        else
          let one := String.mk [ch]
          let two := one ++ charToStr (prog.get? (loc+1))
          if (symbols two).isSome then
            lexLoop prog fuel (loc+2) line (acc ++ [⟨two, symbols one, some line⟩])
          else if (symbols one).isSome then
            lexLoop prog fuel (loc+1) line (acc ++ [⟨one, symbols one, some line⟩])
          else
            lexLoop prog fuel loc line acc
    else some (acc ++ [endTok])

/-- `lex(program)` under a fuel bound: starts with the synthetic start token
at position 0, line 1. -/
def lexF (fuel : Nat) (p : String) : Option (List Token) :=
  lexLoop p.data fuel 0 1 [startTok]

/-- `lex` with fuel ample for any input that does not make the source loop
forever (each iteration of a terminating run advances the position). -/
def lexT (p : String) : Option (List Token) :=
  lexF (p.length + 50) p

/-- An error escaping `parse`: either the structured `throw {token, message}`
object used by the parser's own error sites, or a JavaScript runtime fault
(TypeError / ReferenceError) with no token or message fields. -/
inductive JsErr where
  | parseError : Token → String → JsErr
  | typeError : String → JsErr
deriving DecidableEq, Repr

/-- The parser's mutable state: the token list, the cursor `loc` (the current
token `c` is `tokens[loc]`), and the flat symbol table (named `variables` in
the source; `variables` is reserved in Lean, so the field is `vars`). -/
structure PState where
  tokens : List Token
  loc : Nat
  vars : List String
deriving DecidableEq, Repr

/-- Result of a parser computation: `out` is fuel exhaustion (the source would
still be running), `err` a thrown value, `ok` a result with the new state. -/
inductive PRes (α : Type) where
  | out : PRes α
  | err : JsErr → PRes α
  | ok : α → PState → PRes α
deriving Repr

def PRes.bind {α β : Type} : PRes α → (α → PState → PRes β) → PRes β
  | .out, _ => .out
  | .err e, _ => .err e
  | .ok a st, f => f a st

/-- The current token `c = tokens[loc]`; `none` is JS `undefined`. -/
def cur (st : PState) : Option Token :=
  st.tokens.get? st.loc

/-- `advance()`. -/
def advanceSt (st : PState) : PState :=
  { st with loc := st.loc + 1 }

/-- `accept(arg)`: tests `c.type === arg || c.symbol === arg`, advancing on a
match.  Reading `c.type` when `c` is `undefined` is a TypeError. -/
def accept (arg : String) (st : PState) : Except JsErr (Bool × PState) :=
  match cur st with
  | none => Except.error (JsErr.typeError ("cannot read property type of undefined"))
  | some t =>
    if t.type = some arg ∨ t.symbol = arg then Except.ok (true, advanceSt st)
    else Except.ok (false, st)

/-- `expect(arg)`: returns true on a match; on a mismatch it calls `error(c,
...)`, but no function named `error` exists anywhere in the program, so the
mismatch path is a ReferenceError, not a structured throw. -/
def expectT (arg : String) (st : PState) : Except JsErr Bool :=
  match cur st with
  | none => Except.error (JsErr.typeError ("cannot read property type of undefined"))
  | some t =>
    if t.type = some arg ∨ t.symbol = arg then Except.ok true
    else Except.error (JsErr.typeError ("error is not defined"))

/-- An entry of the `binaryOps` table. -/
structure BinOpInfo where
  precedence : Nat
  associativity : String
deriving DecidableEq, Repr

/-- The `binaryOps` table. -/
def binaryOps : String → Option BinOpInfo
  | "==" => some ⟨3, "left"⟩
  | ">" => some ⟨3, "left"⟩
  | "<" => some ⟨3, "left"⟩
  | ">=" => some ⟨3, "left"⟩
  | "<=" => some ⟨3, "left"⟩
  | "-" => some ⟨4, "left"⟩
  | "+" => some ⟨4, "left"⟩
  | "*" => some ⟨5, "left"⟩
  | "/" => some ⟨5, "left"⟩
  | _ => none

/-- The `unaryOps` table (each entry has precedence 6). -/
def unaryOps : String → Option Nat
  | "+" => some 6
  | "-" => some 6
  | "!" => some 6
  | _ => none

/-- Expression AST values.  `atom()` returns number and identifier TOKENS
directly, so leaves are tokens; `undef` models `atom()` falling off the end
of its if/else chain and returning JS `undefined`. -/
inductive Expr where
  | tok : Token → Expr
  | unary : String → Expr → Expr
  | binary : String → Expr → Expr → Expr
  | undef : Expr
deriving DecidableEq, Repr

/-- Statement AST nodes, as built by `statement()`. -/
inductive Stmt where
  | assignment : String → Expr → Stmt
  | label : String → Stmt
  | goto : String → Stmt
  | conditional : List Expr → List (List Stmt) → Stmt
  | forLoop : String → Expr → Expr → List Stmt → Stmt
  | whileLoop : Expr → List Stmt → Stmt
  | print : Expr → Stmt
  | read : Stmt
deriving Repr

/-- The loop of `separator(enforce)`: `while (accept("NEWLINE")) numSeparators++`,
returning the count. -/
def sepLoopF : Nat → Nat → PState → PRes Nat
  | 0, _, _ => .out
  | fuel+1, n, st =>
    match accept ("NEWLINE") st with
    | .error e => .err e
    | .ok (true, st1) => sepLoopF fuel (n+1) st1
    | .ok (false, st1) => .ok n st1

/-- `separator(enforce)`: consume newline tokens; when enforcing, throw a
structured error unless at least one separator was seen or the current token
has type END. -/
def separatorF (fuel : Nat) (enforce : Bool) (st : PState) : PRes Unit :=
  (sepLoopF fuel 0 st).bind fun n st1 =>
    if enforce ∧ n = 0 then
      match cur st1 with
      | none => .err (JsErr.typeError ("cannot read property type of undefined"))
      | some t =>
        if t.type = some ("END") then .ok () st1
        else .err (JsErr.parseError t ("Expected statement separator before \x27" ++ t.symbol ++ "\x27"))
    else .ok () st1

mutual

/-- `atom()`.  Note the faithful fall-through: when the current token is not
an opening parenthesis, an operator, a number or an identifier, no branch
fires and the function returns `undefined`, consuming nothing. -/
def atomF : Nat → PState → PRes Expr
  | 0, _ => .out
  | fuel+1, st =>
    match accept ("(") st with
    | .error e => .err e
    | .ok (true, st1) =>
      (expressionF fuel 1 st1).bind fun val st2 =>
        match accept (")") st2 with
        | .error e => .err e
        | .ok (true, st3) => .ok val st3
        | .ok (false, st3) =>
          match cur st3 with
          | some t => .err (JsErr.parseError t ("Unmatched \x27(\x27, expected \x27)\x27"))
          | none => .err (JsErr.typeError ("unreachable: accept would have thrown"))
    | .ok (false, st1) =>
      match cur st1 with
      | none => .err (JsErr.typeError ("unreachable: accept would have thrown"))
      | some t =>
        if t.type = some ("OPERATOR") then
          match unaryOps t.symbol with
          | some prec =>
            (expressionF fuel prec (advanceSt st1)).bind fun e st2 =>
              .ok (Expr.unary t.symbol e) st2
          | none => .err (JsErr.parseError t ("Expected unary prefix operator."))
        else if t.type = some ("NUMBER") then
          .ok (Expr.tok t) (advanceSt st1)
        else if t.type = some ("IDENTIFIER") then
          if st1.vars.contains t.symbol then .ok (Expr.tok t) (advanceSt st1)
          else .err (JsErr.parseError t ("The identifier \x27" ++ t.symbol ++ "\x27 is not defined."))
        else
          .ok Expr.undef st1

/-- `expression(minPrecedence)`: parse an atom, then climb. -/
def expressionF : Nat → Nat → PState → PRes Expr
  | 0, _, _ => .out
  | fuel+1, minPrec, st =>
    (atomF fuel st).bind fun lhs st1 => exprLoopF fuel minPrec lhs st1

/-- The `while (true)` climbing loop of `expression`.  The loop condition
reads `binaryOps[c.symbol].precedence` whenever `c` is an OPERATOR token, so
an operator absent from `binaryOps` (such as `%`, `=`, `:` or `..`) is a
TypeError, not a structured parse error. -/
def exprLoopF : Nat → Nat → Expr → PState → PRes Expr
  | 0, _, _, _ => .out
  | fuel+1, minPrec, lhs, st =>
    match cur st with
    | none => .err (JsErr.typeError ("cannot read property type of undefined"))
    | some t =>
      if t.type = some ("OPERATOR") then
        match binaryOps t.symbol with
        | none => .err (JsErr.typeError ("cannot read property precedence of undefined"))
        | some bo =>
          if bo.precedence < minPrec then .ok lhs st
          else
            match expectT ("OPERATOR") st with
            | .error e => .err e
            | .ok _ =>
              let nextMin := if bo.associativity = "left" then bo.precedence + 1 else bo.precedence
              (expressionF fuel nextMin (advanceSt st)).bind fun rhs st2 =>
                exprLoopF fuel minPrec (Expr.binary t.symbol lhs rhs) st2
      else .ok lhs st

/-- The statement dispatch of `statement()` (everything before the final
`separator(true)`). -/
def statementCoreF : Nat → PState → PRes Stmt
  | 0, _ => .out
  | fuel+1, st =>
    match accept ("LET") st with
    | .error e => .err e
    | .ok (true, st1) =>
      -- let name = c; advance();
      let name? := cur st1
      let st2 := advanceSt st1
      match accept ("=") st2 with
      | .error e => .err e
      | .ok (false, st3) =>
        match cur st3 with
        | some t => .err (JsErr.parseError t ("Expected ="))
        | none => .err (JsErr.typeError ("unreachable: accept would have thrown"))
      | .ok (true, st3) =>
        (expressionF fuel 1 st3).bind fun rhs st4 =>
          match name? with
          | none => .err (JsErr.typeError ("cannot read property symbol of undefined"))
          | some name =>
            if st4.vars.contains name.symbol then
              .err (JsErr.parseError name ("Variable " ++ name.symbol ++ " is already defined"))
            else
              .ok (Stmt.assignment name.symbol rhs)
                { st4 with vars := st4.vars ++ [name.symbol] }
    | .ok (false, st1) =>
      match cur st1 with
      | none => .err (JsErr.typeError ("unreachable: accept would have thrown"))
      | some t =>
        if t.type = some ("IDENTIFIER") then
          let st2 := advanceSt st1
          match accept ("=") st2 with
          | .error e => .err e
          | .ok (true, st3) =>
            if st3.vars.contains t.symbol then
              (expressionF fuel 1 st3).bind fun rhs st4 =>
                .ok (Stmt.assignment t.symbol rhs) st4
            else
              .err (JsErr.parseError t ("The identifier \x27" ++ t.symbol ++ "\x27 is not defined."))
          | .ok (false, st3) =>
            match accept (":") st3 with
            | .error e => .err e
            | .ok (true, st4) => .ok (Stmt.label t.symbol) st4
            | .ok (false, st4) =>
              match cur st4 with
              | some t2 => .err (JsErr.parseError t2 ("Unexpected " ++ t2.symbol))
              | none => .err (JsErr.typeError ("unreachable: accept would have thrown"))
        else
          match accept ("IF") st1 with
          | .error e => .err e
          | .ok (true, st2) =>
            (expressionF fuel 1 st2).bind fun condition st3 =>
              (blockF fuel st3).bind fun body st4 =>
                (separatorF fuel false st4).bind fun _ st5 =>
                  (elifF fuel [condition] [body] st5).bind fun cb st6 =>
                    .ok (Stmt.conditional cb.1 cb.2) st6
          | .ok (false, st2) =>
            match accept ("FOR") st2 with
            | .error e => .err e
            | .ok (true, st3) =>
              -- let name = c; isDefined(name) compares the token OBJECT with
              -- the strings in `variables`, which is always false, so the
              -- name is pushed unconditionally.
              match cur st3 with
              | none => .err (JsErr.typeError ("cannot read property symbol of undefined"))
              | some nameT =>
                let st4 := advanceSt { st3 with vars := st3.vars ++ [nameT.symbol] }
                match accept ("=") st4 with
                | .error e => .err e
                | .ok (_, st5) =>
                  (expressionF fuel 1 st5).bind fun start st6 =>
                    -- advance("..") ignores its argument and just advances.
                    (expressionF fuel 1 (advanceSt st6)).bind fun stop st7 =>
                      (blockF fuel st7).bind fun body st8 =>
                        .ok (Stmt.forLoop nameT.symbol start stop body) st8
            | .ok (false, st3) =>
              match accept ("WHILE") st3 with
              | .error e => .err e
              | .ok (true, st4) =>
                (expressionF fuel 1 st4).bind fun condition st5 =>
                  (blockF fuel st5).bind fun body st6 =>
                    .ok (Stmt.whileLoop condition body) st6
              | .ok (false, st4) =>
                match accept ("PRINT") st4 with
                | .error e => .err e
                | .ok (true, st5) =>
                  (expressionF fuel 1 st5).bind fun child st6 =>
                    .ok (Stmt.print child) st6
                | .ok (false, st5) =>
                  match accept ("READ") st5 with
                  | .error e => .err e
                  | .ok (true, st6) => .ok Stmt.read st6
                  | .ok (false, st6) =>
                    match accept ("goto") st6 with
                    | .error e => .err e
                    | .ok (true, st7) =>
                      match cur st7 with
                      | none => .err (JsErr.typeError ("cannot read property symbol of undefined"))
                      | some t2 => .ok (Stmt.goto t2.symbol) (advanceSt st7)
                    | .ok (false, st7) =>
                      match cur st7 with
                      | some t2 => .err (JsErr.parseError t2 ("Unexpected " ++ t2.symbol))
                      | none => .err (JsErr.typeError ("unreachable: accept would have thrown"))

/-- The else / else-if state machine inside the IF branch of `statement()`. -/
def elifF : Nat → List Expr → List (List Stmt) → PState → PRes (List Expr × List (List Stmt))
  | 0, _, _, _ => .out
  | fuel+1, conds, bodies, st =>
    match accept ("ELSE") st with
    | .error e => .err e
    | .ok (false, st1) => .ok (conds, bodies) st1
    | .ok (true, st1) =>
      match accept ("IF") st1 with
      | .error e => .err e
      | .ok (true, st2) =>
        (expressionF fuel 1 st2).bind fun condition st3 =>
          if condition = Expr.undef then
            match cur st3 with
            | some t => .err (JsErr.parseError t ("Expected expression."))
            | none => .err (JsErr.typeError ("cannot read property type of undefined"))
          else
            (blockF fuel st3).bind fun body st4 =>
              (separatorF fuel false st4).bind fun _ st5 =>
                elifF fuel (conds ++ [condition]) (bodies ++ [body]) st5
      | .ok (false, st2) =>
        (blockF fuel st2).bind fun body st3 =>
          .ok (conds ++ [Expr.tok ⟨"1", some ("NUMBER"), none⟩], bodies ++ [body]) st3

/-- `statement()`: the dispatch followed by `separator(true)`. -/
def statementF : Nat → PState → PRes Stmt
  | 0, _ => .out
  | fuel+1, st =>
    (statementCoreF fuel st).bind fun s st1 =>
      (separatorF fuel true st1).bind fun _ st2 => .ok s st2

/-- `block()`: optional separators, `{`, optional separators, statements
until `}`. -/
def blockF : Nat → PState → PRes (List Stmt)
  | 0, _ => .out
  | fuel+1, st =>
    (separatorF fuel false st).bind fun _ st1 =>
      match accept ("\x7b") st1 with
      | .error e => .err e
      | .ok (false, st2) =>
        match cur st2 with
        | some t => .err (JsErr.parseError t ("Expected \x7b"))
        | none => .err (JsErr.typeError ("unreachable: accept would have thrown"))
      | .ok (true, st2) =>
        (separatorF fuel false st2).bind fun _ st3 => blockLoopF fuel [] st3

/-- The `while (!accept('}'))` loop of `block()`. -/
def blockLoopF : Nat → List Stmt → PState → PRes (List Stmt)
  | 0, _, _ => .out
  | fuel+1, acc, st =>
    match accept ("\x7d") st with
    | .error e => .err e
    | .ok (true, st1) => .ok acc st1
    | .ok (false, st1) =>
      (statementF fuel st1).bind fun s st2 => blockLoopF fuel (acc ++ [s]) st2

/-- The `while (!accept("END"))` loop of `program()`. -/
def programLoopF : Nat → List Stmt → PState → PRes (List Stmt)
  | 0, _, _ => .out
  | fuel+1, acc, st =>
    match accept ("END") st with
    | .error e => .err e
    | .ok (true, st1) => .ok acc st1
    | .ok (false, st1) =>
      (statementF fuel st1).bind fun s st2 => programLoopF fuel (acc ++ [s]) st2

end

/-- `parse(tokens)`: initial advance to position 0, then `program()` —
`accept("START")`, a non-enforcing `separator()`, and the statement loop.
The returned statement list is the `children` of the PROGRAM node. -/
def parseF (fuel : Nat) (tokens : List Token) : PRes (List Stmt) :=
  let st0 : PState := ⟨tokens, 0, []⟩
  match accept ("START") st0 with
  | .error e => .err e
  | .ok (_, st1) =>
    (separatorF fuel false st1).bind fun _ st2 => programLoopF fuel [] st2

/-- Lex with ample fuel, then parse with ample fuel; `none` only when the
lexer diverges. -/
def parseLex (p : String) : Option (PRes (List Stmt)) :=
  match lexT p with
  | none => none
  | some ts => some (parseF 200 ts)

/-- `verbatimOp` from `generate`: operators with a direct C analogue. -/
def verbatimOp : List String :=
  ["+", "-", "/", "*", "==", ">=", "<=", ">", "<"]

/-- Template-literal splicing: JS renders `undefined` as the text
"undefined" inside a template string. -/
def jsStr : Option String → String
  | none => "undefined"
  | some s => s

/-- The expression-level cases of `generateNode`.  The function is pure on
expressions (it touches neither `body` nor `defined`).  `Expr.undef` models
`generateNode(undefined)`: reading `.type` of `undefined` is a TypeError.
A token whose type is neither NUMBER nor IDENTIFIER falls to the switch
default and the call returns JS `undefined` (`none`); the parser only ever
places NUMBER and IDENTIFIER tokens in expression position. -/
def genExpr : Expr → Except String (Option String)
  | Expr.undef => Except.error ("TypeError: cannot read property type of undefined")
  | Expr.tok t =>
    if t.type = some ("NUMBER") then Except.ok (some t.symbol)
    else if t.type = some ("IDENTIFIER") then Except.ok (some t.symbol)
    else Except.ok none
  | Expr.unary op child =>
    (genExpr child).bind fun c =>
      Except.ok (some ("(" ++ jsStr (if verbatimOp.contains op then some op else none)
        ++ jsStr c ++ ")"))
  | Expr.binary op l r =>
    (genExpr l).bind fun ls =>
      (genExpr r).bind fun rs =>
        Except.ok (some ("(" ++ jsStr ls ++ " "
          ++ jsStr (if verbatimOp.contains op then some op else none)
          ++ " " ++ jsStr rs ++ ")"))

/-- The generator's mutable state: the `body` line list and the
generator-local `defined` list of declared variable names. -/
structure GState where
  body : List String
  defined : List String
deriving DecidableEq, Repr

mutual

/-- The statement-level cases of `generateNode`, threading the generator
state.  Faithful quirks: the ASSIGNMENT case records the declared name in
`defined`, but the FOR case pushes the declaration line WITHOUT recording the
name; READ has no case in the switch, so it falls to the (empty) default. -/
def genStmtF : Nat → Stmt → GState → Option (Except String GState)
  | 0, _, _ => none
  | _+1, Stmt.assignment name rhs, g =>
    let g1 := if g.defined.contains name then g
      else ⟨g.body ++ ["int " ++ name ++ ";"], g.defined ++ [name]⟩
    match genExpr rhs with
    | .error e => some (.error e)
    | .ok r => some (.ok ⟨g1.body ++ [name ++ " = " ++ jsStr r ++ ";"], g1.defined⟩)
  | fuel+1, Stmt.whileLoop cond body, g =>
    match genExpr cond with
    | .error e => some (.error e)
    | .ok c =>
      match genStmtsF fuel body ⟨g.body ++ ["while (" ++ jsStr c ++ ") \x7b"], g.defined⟩ with
      | none => none
      | some (.error e) => some (.error e)
      | some (.ok g2) => some (.ok ⟨g2.body ++ ["\x7d"], g2.defined⟩)
  | fuel+1, Stmt.forLoop name start stop body, g =>
    let g1 := if g.defined.contains name then g
      else ⟨g.body ++ ["int " ++ name ++ ";"], g.defined⟩
    match genExpr start with
    | .error e => some (.error e)
    | .ok s =>
      match genExpr stop with
      | .error e => some (.error e)
      | .ok e =>
        match genStmtsF fuel body ⟨g1.body ++
            ["for (" ++ name ++ " = " ++ jsStr s ++ "; "
              ++ name ++ " < " ++ jsStr e ++ "; " ++ name ++ "++) \x7b"],
            g1.defined⟩ with
        | none => none
        | some (.error er) => some (.error er)
        | some (.ok g2) => some (.ok ⟨g2.body ++ ["\x7d"], g2.defined⟩)
  | fuel+1, Stmt.conditional conds bodies, g =>
    match conds with
    | [] => some (.error ("TypeError: cannot read property type of undefined"))
    | c0 :: crest =>
      match genExpr c0 with
      | .error e => some (.error e)
      | .ok c0s =>
        match bodies with
        | [] => some (.error ("TypeError: undefined is not iterable"))
        | b0 :: brest =>
          match genStmtsF fuel b0 ⟨g.body ++ ["if (" ++ jsStr c0s ++ ") \x7b"], g.defined⟩ with
          | none => none
          | some (.error e) => some (.error e)
          | some (.ok g1) => genElseIfsF fuel crest brest ⟨g1.body ++ ["\x7d"], g1.defined⟩
  | _+1, Stmt.print child, g =>
    match genExpr child with
    | .error e => some (.error e)
    | .ok c => some (.ok ⟨g.body ++ ["printf(\"%i\\n\", " ++ jsStr c ++ ");"], g.defined⟩)
  | _+1, Stmt.label name, g => some (.ok ⟨g.body ++ [name ++ ":"], g.defined⟩)
  | _+1, Stmt.goto name, g => some (.ok ⟨g.body ++ ["goto " ++ name ++ ";"], g.defined⟩)
  | _+1, Stmt.read, g => some (.ok g)

/-- The `else if` emission loop of the CONDITIONAL case (indices 1 and up);
running past the end of `bodies` is `for ... of undefined`, a TypeError. -/
def genElseIfsF : Nat → List Expr → List (List Stmt) → GState → Option (Except String GState)
  | 0, _, _, _ => none
  | _+1, [], _, g => some (.ok g)
  | fuel+1, c :: crest, bodies, g =>
    match genExpr c with
    | .error e => some (.error e)
    | .ok cs =>
      match bodies with
      | [] => some (.error ("TypeError: undefined is not iterable"))
      | b :: brest =>
        match genStmtsF fuel b ⟨g.body ++ ["else if (" ++ jsStr cs ++ ") \x7b"], g.defined⟩ with
        | none => none
        | some (.error e) => some (.error e)
        | some (.ok g1) => genElseIfsF fuel crest brest ⟨g1.body ++ ["\x7d"], g1.defined⟩

/-- The PROGRAM case and every `for (child of ...)` body walk. -/
def genStmtsF : Nat → List Stmt → GState → Option (Except String GState)
  | 0, _, _ => none
  | _+1, [], g => some (.ok g)
  | fuel+1, s :: rest, g =>
    match genStmtF fuel s g with
    | none => none
    | some (.error e) => some (.error e)
    | some (.ok g1) => genStmtsF fuel rest g1

end

/-- `headers()`. -/
def headersStr : String :=
  "#include <stdio.h>\n\nint main() \x7b"

/-- `generate(ast)` for a PROGRAM node with the given children: walk the
tree from an empty state, join the body lines with newline-tab, and wrap in
the fixed prologue and epilogue. -/
def generateF (fuel : Nat) (prog : List Stmt) : Option (Except String String) :=
  match genStmtsF fuel prog ⟨[], []⟩ with
  | none => none
  | some (.error e) => some (.error e)
  | some (.ok g) =>
    some (.ok (headersStr ++ "\n" ++ "\t" ++ String.intercalate ("\n\t") g.body ++ "\n" ++ "\x7d"))

/-
  Theorems.
-/

theorem findNewline_none_of_no_newline (prog : List Char)
    (H : ∀ c ∈ prog, isNLCh c = false) :
    ∀ fuel loc, findNewline prog loc fuel = none := by
  intro fuel
  induction fuel with
  | zero => intro loc; rfl
  | succ n ih =>
    intro loc
    rw [findNewline]
    cases h : prog.get? loc with
    | none => exact ih (loc+1)
    | some ch =>
      simp only [H ch (List.get?_mem h), Bool.false_eq_true, if_false]
      exact ih (loc+1)

theorem lexLoop_spin_at : ∀ fuel acc, lexLoop (("@").data) fuel 0 1 acc = none := by
  intro fuel
  induction fuel with
  | zero => intro acc; rfl
  | succ n ih => intro acc; exact ih acc

/-- C1: lex is NOT total.  The classifying if/else chain of the lexer's main
loop has no fallback branch, so an unrecognized character such as `@` is never
skipped: the loop spins at the same position forever and `lex` does not
terminate (no amount of fuel yields a result).  A `//` comment not followed by
a newline likewise makes the comment-skipping loop advance past the end of the
input forever, since `charAt` returns the empty string there, which is not a
newline. -/
theorem c1_lex_diverges :
    (∀ fuel, lexF fuel ("@") = none) ∧ (∀ fuel, lexF fuel ("// hi")= none) := by
  constructor
  · intro fuel
    exact lexLoop_spin_at fuel [startTok]
  · intro fuel
    cases fuel with
    | zero => rfl
    | succ n =>
      have hnl : ∀ c ∈ (("// hi").data), isNLCh c = false := by decide
      have hstep : lexF (n+1) ("// hi") =
          (match findNewline (("// hi").data) 0 n with
           | none => none
           | some p =>
             lexLoop (("// hi").data) n
               (p + (((("// hi").data).drop p).takeWhile isNLCh).length) 1 [startTok]) := rfl
      rw [hstep, findNewline_none_of_no_newline (("// hi").data) hnl n 0]

/-- C1 witness: at any concrete fuel the lexer has not terminated on `@`. -/
theorem c1_lex_diverges_witness : lexF 25 ("@") = none :=
  c1_lex_diverges.1 25

/-- C2: generation is NOT total over every AST the parser accepts.  On the
token sequence of the source "print\n" the parser returns a Program whose
PRINT statement has an `undefined` child (`atom()` falls off the end of its
if/else chain on the NEWLINE token instead of raising an error), and
`generate` on that Program throws a TypeError (reading `.type` of
`undefined`) instead of returning a string. -/
theorem c2_parse_accepts_generate_throws :
    lexT ("print\n") = some
      [⟨"start", some ("START"), none⟩, ⟨"print", some ("PRINT"), some 1⟩,
       ⟨"newline", some ("NEWLINE"), some 1⟩, ⟨"end", some ("END"), none⟩] ∧
    parseF 50
      [⟨"start", some ("START"), none⟩, ⟨"print", some ("PRINT"), some 1⟩,
       ⟨"newline", some ("NEWLINE"), some 1⟩, ⟨"end", some ("END"), none⟩] =
      PRes.ok [Stmt.print Expr.undef]
        ⟨[⟨"start", some ("START"), none⟩, ⟨"print", some ("PRINT"), some 1⟩,
          ⟨"newline", some ("NEWLINE"), some 1⟩, ⟨"end", some ("END"), none⟩], 4, []⟩ ∧
    generateF 50 [Stmt.print Expr.undef] =
      some (Except.error ("TypeError: cannot read property type of undefined")) :=
  ⟨rfl, rfl, rfl⟩

/-- C3: parse failures are NOT always structured parse errors.  The climbing
loop of `expression` reads `binaryOps[c.symbol].precedence` for any OPERATOR
token, and `%` is lexed as an OPERATOR but has no `binaryOps` entry, so
parsing "print 1 % 2" raises a bare TypeError carrying no token and no
message field. -/
theorem c3_parse_raises_generic_fault :
    lexT ("print 1 % 2\n") = some
      [⟨"start", some ("START"), none⟩, ⟨"print", some ("PRINT"), some 1⟩,
       ⟨"1", some ("NUMBER"), some 1⟩, ⟨"%", some ("OPERATOR"), some 1⟩,
       ⟨"2", some ("NUMBER"), some 1⟩, ⟨"newline", some ("NEWLINE"), some 1⟩,
       ⟨"end", some ("END"), none⟩] ∧
    parseF 50
      [⟨"start", some ("START"), none⟩, ⟨"print", some ("PRINT"), some 1⟩,
       ⟨"1", some ("NUMBER"), some 1⟩, ⟨"%", some ("OPERATOR"), some 1⟩,
       ⟨"2", some ("NUMBER"), some 1⟩, ⟨"newline", some ("NEWLINE"), some 1⟩,
       ⟨"end", some ("END"), none⟩] =
      PRes.err (JsErr.typeError ("cannot read property precedence of undefined")) :=
  ⟨rfl, rfl⟩

/-- C4: on the valid program "print" (it lexes and parses without error) the
pipeline does NOT return a string: `generate` throws a TypeError on the
undefined expression child the parser let through.  Separately, a UNARY node
whose operator is `!` (absent from `verbatimOp`, and also unobtainable from
`lex`, which has no `!` entry in `symbols`) splices the literal text
"undefined" into the output. -/
theorem c4_pipeline_fails_on_print :
    lexT ("print") = some
      [⟨"start", some ("START"), none⟩, ⟨"print", some ("PRINT"), some 1⟩,
       ⟨"end", some ("END"), none⟩] ∧
    parseF 50
      [⟨"start", some ("START"), none⟩, ⟨"print", some ("PRINT"), some 1⟩,
       ⟨"end", some ("END"), none⟩] =
      PRes.ok [Stmt.print Expr.undef]
        ⟨[⟨"start", some ("START"), none⟩, ⟨"print", some ("PRINT"), some 1⟩,
          ⟨"end", some ("END"), none⟩], 3, []⟩ ∧
    generateF 40 [Stmt.print Expr.undef] =
      some (Except.error ("TypeError: cannot read property type of undefined")) ∧
    generateF 50 [Stmt.print (Expr.unary ("!") (Expr.tok ⟨"1", some ("NUMBER"), some 1⟩))] =
      some (Except.ok
        ("#include <stdio.h>\n\nint main() \x7b\n\tprintf(\"%i\\n\", (undefined1));\n\x7d")) :=
  ⟨rfl, rfl, rfl, rfl⟩

/-- C5: the generator's `defined` set does NOT record every declaration it
emits: the FOR case pushes the declaration line but omits the name from
`defined`, so the valid program "for i = 0..3 {\n}\ni = 5\n" yields TWO
"int i;" declaration lines for the single variable `i`. -/
theorem c5_duplicate_declaration :
    lexT ("for i = 0..3 \x7b\n\x7d\ni = 5\n") = some
      [⟨"start", some ("START"), none⟩, ⟨"for", some ("FOR"), some 1⟩,
       ⟨"i", some ("IDENTIFIER"), some 1⟩, ⟨"=", some ("OPERATOR"), some 1⟩,
       ⟨"0", some ("NUMBER"), some 1⟩, ⟨"..", none, some 1⟩,
       ⟨"3", some ("NUMBER"), some 1⟩, ⟨"\x7b", some ("PAREN"), some 1⟩,
       ⟨"newline", some ("NEWLINE"), some 1⟩, ⟨"\x7d", some ("PAREN"), some 2⟩,
       ⟨"newline", some ("NEWLINE"), some 2⟩, ⟨"i", some ("IDENTIFIER"), some 3⟩,
       ⟨"=", some ("OPERATOR"), some 3⟩, ⟨"5", some ("NUMBER"), some 3⟩,
       ⟨"newline", some ("NEWLINE"), some 3⟩, ⟨"end", some ("END"), none⟩] ∧
    parseF 100
      [⟨"start", some ("START"), none⟩, ⟨"for", some ("FOR"), some 1⟩,
       ⟨"i", some ("IDENTIFIER"), some 1⟩, ⟨"=", some ("OPERATOR"), some 1⟩,
       ⟨"0", some ("NUMBER"), some 1⟩, ⟨"..", none, some 1⟩,
       ⟨"3", some ("NUMBER"), some 1⟩, ⟨"\x7b", some ("PAREN"), some 1⟩,
       ⟨"newline", some ("NEWLINE"), some 1⟩, ⟨"\x7d", some ("PAREN"), some 2⟩,
       ⟨"newline", some ("NEWLINE"), some 2⟩, ⟨"i", some ("IDENTIFIER"), some 3⟩,
       ⟨"=", some ("OPERATOR"), some 3⟩, ⟨"5", some ("NUMBER"), some 3⟩,
       ⟨"newline", some ("NEWLINE"), some 3⟩, ⟨"end", some ("END"), none⟩] =
      PRes.ok
        [Stmt.forLoop ("i") (Expr.tok ⟨"0", some ("NUMBER"), some 1⟩)
           (Expr.tok ⟨"3", some ("NUMBER"), some 1⟩) [],
         Stmt.assignment ("i") (Expr.tok ⟨"5", some ("NUMBER"), some 3⟩)]
        ⟨[⟨"start", some ("START"), none⟩, ⟨"for", some ("FOR"), some 1⟩,
          ⟨"i", some ("IDENTIFIER"), some 1⟩, ⟨"=", some ("OPERATOR"), some 1⟩,
          ⟨"0", some ("NUMBER"), some 1⟩, ⟨"..", none, some 1⟩,
          ⟨"3", some ("NUMBER"), some 1⟩, ⟨"\x7b", some ("PAREN"), some 1⟩,
          ⟨"newline", some ("NEWLINE"), some 1⟩, ⟨"\x7d", some ("PAREN"), some 2⟩,
          ⟨"newline", some ("NEWLINE"), some 2⟩, ⟨"i", some ("IDENTIFIER"), some 3⟩,
          ⟨"=", some ("OPERATOR"), some 3⟩, ⟨"5", some ("NUMBER"), some 3⟩,
          ⟨"newline", some ("NEWLINE"), some 3⟩, ⟨"end", some ("END"), none⟩], 16, ["i"]⟩ ∧
    genStmtsF 100
      [Stmt.forLoop ("i") (Expr.tok ⟨"0", some ("NUMBER"), some 1⟩)
         (Expr.tok ⟨"3", some ("NUMBER"), some 1⟩) [],
       Stmt.assignment ("i") (Expr.tok ⟨"5", some ("NUMBER"), some 3⟩)] ⟨[], []⟩ =
      some (Except.ok
        ⟨["int i;", "for (i = 0; i < 3; i++) \x7b", "\x7d", "int i;", "i = 5;"], ["i"]⟩) ∧
    (["int i;", "for (i = 0; i < 3; i++) \x7b", "\x7d", "int i;", "i = 5;"].count ("int i;")) = 2 :=
  ⟨rfl, rfl, rfl, rfl⟩

/-- C6 counterexample: the claim is false as stated.  In the block
`{ print 1 }` the closing brace directly follows the statement with zero
NEWLINE separators, and `parse` raises the separator error (the trailing
`separator(true)` at the end of `statement()` only exempts END, not `}`). -/
theorem c6_block_needs_separator :
    parseLex ("if 1 \x7b print 1 \x7d") =
      some (PRes.err (JsErr.parseError ⟨"\x7d", some ("PAREN"), some 1⟩
        ("Expected statement separator before \x27\x7d\x27"))) :=
  rfl

/-- C6 amended: a closing `}` with zero preceding NEWLINE separators is
accepted only when the block is empty; after any statement in a block at
least one NEWLINE must precede `}` (the statement's mandatory trailing
separator), and with that separator present the block parses. -/
theorem c6_amended_separator_rules :
    parseLex ("if 1 \x7b\x7d\n") =
      some (PRes.ok
        [Stmt.conditional [Expr.tok ⟨"1", some ("NUMBER"), some 1⟩] [[]]]
        ⟨[⟨"start", some ("START"), none⟩, ⟨"if", some ("IF"), some 1⟩,
          ⟨"1", some ("NUMBER"), some 1⟩, ⟨"\x7b", some ("PAREN"), some 1⟩,
          ⟨"\x7d", some ("PAREN"), some 1⟩, ⟨"newline", some ("NEWLINE"), some 1⟩,
          ⟨"end", some ("END"), none⟩], 7, []⟩) ∧
    parseLex ("if 1 \x7b\nprint 1\n\x7d\n") =
      some (PRes.ok
        [Stmt.conditional [Expr.tok ⟨"1", some ("NUMBER"), some 1⟩]
           [[Stmt.print (Expr.tok ⟨"1", some ("NUMBER"), some 2⟩)]]]
        ⟨[⟨"start", some ("START"), none⟩, ⟨"if", some ("IF"), some 1⟩,
          ⟨"1", some ("NUMBER"), some 1⟩, ⟨"\x7b", some ("PAREN"), some 1⟩,
          ⟨"newline", some ("NEWLINE"), some 1⟩, ⟨"print", some ("PRINT"), some 2⟩,
          ⟨"1", some ("NUMBER"), some 2⟩, ⟨"newline", some ("NEWLINE"), some 2⟩,
          ⟨"\x7d", some ("PAREN"), some 3⟩, ⟨"newline", some ("NEWLINE"), some 3⟩,
          ⟨"end", some ("END"), none⟩], 11, []⟩) :=
  ⟨rfl, rfl⟩

/-- C7: the two-character operators `>=`, `<=`, `==` each yield one token with
that two-character symbol and type OPERATOR, but `..` does NOT: the branch
stores `symbols[c]`, the type of the FIRST character only, and `.` alone has
no `symbols` entry, so the `..` token's type is `undefined` (here `none`)
rather than the declared OPERATOR. -/
theorem c7_two_char_operator_types :
    lexT ("1>=2") = some
      [⟨"start", some ("START"), none⟩, ⟨"1", some ("NUMBER"), some 1⟩,
       ⟨">=", some ("OPERATOR"), some 1⟩, ⟨"2", some ("NUMBER"), some 1⟩,
       ⟨"end", some ("END"), none⟩] ∧
    lexT ("1<=2") = some
      [⟨"start", some ("START"), none⟩, ⟨"1", some ("NUMBER"), some 1⟩,
       ⟨"<=", some ("OPERATOR"), some 1⟩, ⟨"2", some ("NUMBER"), some 1⟩,
       ⟨"end", some ("END"), none⟩] ∧
    lexT ("1==2") = some
      [⟨"start", some ("START"), none⟩, ⟨"1", some ("NUMBER"), some 1⟩,
       ⟨"==", some ("OPERATOR"), some 1⟩, ⟨"2", some ("NUMBER"), some 1⟩,
       ⟨"end", some ("END"), none⟩] ∧
    lexT ("0..1") = some
      [⟨"start", some ("START"), none⟩, ⟨"0", some ("NUMBER"), some 1⟩,
       ⟨"..", none, some 1⟩, ⟨"1", some ("NUMBER"), some 1⟩,
       ⟨"end", some ("END"), none⟩] ∧
    (none : Option String) ≠ some ("OPERATOR") :=
  ⟨rfl, rfl, rfl, rfl, by decide⟩

/-- C9: the precedence table is as stated (comparisons at 3, additive at 4,
multiplicative at 5, all left-associative), "2 + 3 * 4" parses with the
multiplication bound tighter, and "10 - 3 - 2" associates to the left. -/
theorem c9_precedence_and_associativity :
    binaryOps ("==") = some ⟨3, "left"⟩ ∧ binaryOps (">") = some ⟨3, "left"⟩ ∧
    binaryOps ("<") = some ⟨3, "left"⟩ ∧ binaryOps (">=") = some ⟨3, "left"⟩ ∧
    binaryOps ("<=") = some ⟨3, "left"⟩ ∧ binaryOps ("+") = some ⟨4, "left"⟩ ∧
    binaryOps ("-") = some ⟨4, "left"⟩ ∧ binaryOps ("*") = some ⟨5, "left"⟩ ∧
    binaryOps ("/") = some ⟨5, "left"⟩ ∧
    lexT ("2 + 3 * 4") = some
      [⟨"start", some ("START"), none⟩, ⟨"2", some ("NUMBER"), some 1⟩,
       ⟨"+", some ("OPERATOR"), some 1⟩, ⟨"3", some ("NUMBER"), some 1⟩,
       ⟨"*", some ("OPERATOR"), some 1⟩, ⟨"4", some ("NUMBER"), some 1⟩,
       ⟨"end", some ("END"), none⟩] ∧
    expressionF 50 1
      ⟨[⟨"start", some ("START"), none⟩, ⟨"2", some ("NUMBER"), some 1⟩,
        ⟨"+", some ("OPERATOR"), some 1⟩, ⟨"3", some ("NUMBER"), some 1⟩,
        ⟨"*", some ("OPERATOR"), some 1⟩, ⟨"4", some ("NUMBER"), some 1⟩,
        ⟨"end", some ("END"), none⟩], 1, []⟩ =
      PRes.ok
        (Expr.binary ("+") (Expr.tok ⟨"2", some ("NUMBER"), some 1⟩)
          (Expr.binary ("*") (Expr.tok ⟨"3", some ("NUMBER"), some 1⟩)
            (Expr.tok ⟨"4", some ("NUMBER"), some 1⟩)))
        ⟨[⟨"start", some ("START"), none⟩, ⟨"2", some ("NUMBER"), some 1⟩,
          ⟨"+", some ("OPERATOR"), some 1⟩, ⟨"3", some ("NUMBER"), some 1⟩,
          ⟨"*", some ("OPERATOR"), some 1⟩, ⟨"4", some ("NUMBER"), some 1⟩,
          ⟨"end", some ("END"), none⟩], 6, []⟩ ∧
    lexT ("10 - 3 - 2") = some
      [⟨"start", some ("START"), none⟩, ⟨"10", some ("NUMBER"), some 1⟩,
       ⟨"-", some ("OPERATOR"), some 1⟩, ⟨"3", some ("NUMBER"), some 1⟩,
       ⟨"-", some ("OPERATOR"), some 1⟩, ⟨"2", some ("NUMBER"), some 1⟩,
       ⟨"end", some ("END"), none⟩] ∧
    expressionF 50 1
      ⟨[⟨"start", some ("START"), none⟩, ⟨"10", some ("NUMBER"), some 1⟩,
        ⟨"-", some ("OPERATOR"), some 1⟩, ⟨"3", some ("NUMBER"), some 1⟩,
        ⟨"-", some ("OPERATOR"), some 1⟩, ⟨"2", some ("NUMBER"), some 1⟩,
        ⟨"end", some ("END"), none⟩], 1, []⟩ =
      PRes.ok
        (Expr.binary ("-")
          (Expr.binary ("-") (Expr.tok ⟨"10", some ("NUMBER"), some 1⟩)
            (Expr.tok ⟨"3", some ("NUMBER"), some 1⟩))
          (Expr.tok ⟨"2", some ("NUMBER"), some 1⟩))
        ⟨[⟨"start", some ("START"), none⟩, ⟨"10", some ("NUMBER"), some 1⟩,
          ⟨"-", some ("OPERATOR"), some 1⟩, ⟨"3", some ("NUMBER"), some 1⟩,
          ⟨"-", some ("OPERATOR"), some 1⟩, ⟨"2", some ("NUMBER"), some 1⟩,
          ⟨"end", some ("END"), none⟩], 6, []⟩ :=
  ⟨rfl, rfl, rfl, rfl, rfl, rfl, rfl, rfl, rfl, rfl, rfl, rfl, rfl⟩
/-- C10: identifier definedness is enforced against the flat symbol table.
An IDENTIFIER token in expression position whose symbol is absent from
`variables` makes `atom` throw the structured "not defined" error carrying
that token; concretely, "let x = 1\nx = y" fails on `y` (line 2) with the
"not defined" message, and "let x = 1\nlet x = 2" fails on the second `x`
(line 2) with the "already defined" message. -/
theorem c10_definedness :
    (∀ (f : Nat) (st : PState) (s : String) (l : Option Nat),
        cur st = some ⟨s, some ("IDENTIFIER"), l⟩ →
        st.vars.contains s = false →
        s ≠ "(" →
        atomF (f+1) st =
          PRes.err (JsErr.parseError ⟨s, some ("IDENTIFIER"), l⟩
            ("The identifier \x27" ++ s ++ "\x27 is not defined."))) ∧
    parseLex ("let x = 1\nx = y") =
      some (PRes.err (JsErr.parseError ⟨"y", some ("IDENTIFIER"), some 2⟩
        ("The identifier \x27y\x27 is not defined."))) ∧
    parseLex ("let x = 1\nlet x = 2") =
      some (PRes.err (JsErr.parseError ⟨"x", some ("IDENTIFIER"), some 2⟩
        ("Variable x is already defined"))) := by
  refine ⟨?_, rfl, rfl⟩
  intro f st s l hcur hvars hs
  simp [atomF, accept, hcur, hs]
  simpa using hvars

/-- C10 witness: the general clause applied to a one-token state holding an
undefined identifier `y`. -/
theorem c10_definedness_witness :
    atomF 5 ⟨[⟨"y", some ("IDENTIFIER"), some 2⟩], 0, []⟩ =
      PRes.err (JsErr.parseError ⟨"y", some ("IDENTIFIER"), some 2⟩
        ("The identifier \x27y\x27 is not defined.")) :=
  c10_definedness.1 4 ⟨[⟨"y", some ("IDENTIFIER"), some 2⟩], 0, []⟩ ("y") (some 2)
    rfl rfl (by decide)
theorem genBody_extends : ∀ fuel : Nat,
    (∀ s g r, genStmtF fuel s g = some (Except.ok r) → ∃ L, r.body = g.body ++ L) ∧
    (∀ cs bs g r, genElseIfsF fuel cs bs g = some (Except.ok r) → ∃ L, r.body = g.body ++ L) ∧
    (∀ ss g r, genStmtsF fuel ss g = some (Except.ok r) → ∃ L, r.body = g.body ++ L) := by
  intro fuel
  induction fuel with
  | zero =>
    refine ⟨?_, ?_, ?_⟩
    · intro s g r h; simp [genStmtF] at h
    · intro cs bs g r h; simp [genElseIfsF] at h
    · intro ss g r h; simp [genStmtsF] at h
  | succ n ih =>
    obtain ⟨ihS, ihE, ihL⟩ := ih
    refine ⟨?_, ?_, ?_⟩
    · intro s g r h
      cases s with
      | assignment name rhs =>
        simp only [genStmtF] at h
        split at h
        · exact absurd h (by simp)
        · rename_i rr hrr
          by_cases hc : g.defined.contains name = true
          · rw [if_pos hc] at h
            simp only [Option.some.injEq, Except.ok.injEq] at h
            exact ⟨_, by rw [← h]⟩
          · rw [if_neg hc] at h
            simp only [Option.some.injEq, Except.ok.injEq] at h
            refine ⟨["int " ++ name ++ ";", name ++ " = " ++ jsStr rr ++ ";"], ?_⟩
            rw [← h]
            simp
      | whileLoop cond body =>
        simp only [genStmtF] at h
        split at h
        · exact absurd h (by simp)
        · rename_i c hcv
          split at h
          · exact absurd h (by simp)
          · exact absurd h (by simp)
          · rename_i g2 hg2
            obtain ⟨L, hL⟩ := ihL body _ g2 hg2
            simp only [Option.some.injEq, Except.ok.injEq] at h
            refine ⟨["while (" ++ jsStr c ++ ") \x7b"] ++ L ++ ["\x7d"], ?_⟩
            rw [← h]
            simp only [hL]
            simp
      | forLoop name start stop body =>
        simp only [genStmtF] at h
        by_cases hc : g.defined.contains name = true
        · rw [if_pos hc] at h
          split at h
          · exact absurd h (by simp)
          · rename_i sv hsv
            split at h
            · exact absurd h (by simp)
            · rename_i ev hev
              split at h
              · exact absurd h (by simp)
              · exact absurd h (by simp)
              · rename_i g2 hg2
                obtain ⟨L, hL⟩ := ihL body _ g2 hg2
                simp only [Option.some.injEq, Except.ok.injEq] at h
                refine ⟨["for (" ++ name ++ " = " ++ jsStr sv ++ "; " ++ name ++ " < " ++ jsStr ev ++ "; " ++ name ++ "++) \x7b"] ++ L ++ ["\x7d"], ?_⟩
                rw [← h]
                simp only [hL]
                simp
        · rw [if_neg hc] at h
          split at h
          · exact absurd h (by simp)
          · rename_i sv hsv
            split at h
            · exact absurd h (by simp)
            · rename_i ev hev
              split at h
              · exact absurd h (by simp)
              · exact absurd h (by simp)
              · rename_i g2 hg2
                obtain ⟨L, hL⟩ := ihL body _ g2 hg2
                simp only [Option.some.injEq, Except.ok.injEq] at h
                refine ⟨["int " ++ name ++ ";"] ++ ["for (" ++ name ++ " = " ++ jsStr sv ++ "; " ++ name ++ " < " ++ jsStr ev ++ "; " ++ name ++ "++) \x7b"] ++ L ++ ["\x7d"], ?_⟩
                rw [← h]
                simp only [hL]
                simp
      | conditional conds bodies =>
        simp only [genStmtF] at h
        split at h
        · exact absurd h (by simp)
        · rename_i c0 crest
          split at h
          · exact absurd h (by simp)
          · rename_i c0s hc0
            split at h
            · exact absurd h (by simp)
            · rename_i b0 brest
              split at h
              · exact absurd h (by simp)
              · exact absurd h (by simp)
              · rename_i g1 hg1
                obtain ⟨L1, hL1⟩ := ihL b0 _ g1 hg1
                obtain ⟨L2, hL2⟩ := ihE crest brest _ r h
                refine ⟨["if (" ++ jsStr c0s ++ ") \x7b"] ++ L1 ++ ["\x7d"] ++ L2, ?_⟩
                rw [hL2]
                simp only [hL1]
                simp
      | print child =>
        simp only [genStmtF] at h
        split at h
        · exact absurd h (by simp)
        · rename_i c hcv
          simp only [Option.some.injEq, Except.ok.injEq] at h
          exact ⟨_, by rw [← h]⟩
      | label name =>
        simp only [genStmtF, Option.some.injEq, Except.ok.injEq] at h
        exact ⟨_, by rw [← h]⟩
      | goto name =>
        simp only [genStmtF, Option.some.injEq, Except.ok.injEq] at h
        exact ⟨_, by rw [← h]⟩
      | read =>
        simp only [genStmtF, Option.some.injEq, Except.ok.injEq] at h
        exact ⟨[], by rw [← h]; simp⟩
    · intro cs bs g r h
      cases cs with
      | nil =>
        simp only [genElseIfsF, Option.some.injEq, Except.ok.injEq] at h
        exact ⟨[], by rw [← h]; simp⟩
      | cons c crest =>
        simp only [genElseIfsF] at h
        split at h
        · exact absurd h (by simp)
        · rename_i cs' hcv
          split at h
          · exact absurd h (by simp)
          · rename_i b brest
            split at h
            · exact absurd h (by simp)
            · exact absurd h (by simp)
            · rename_i g1 hg1
              obtain ⟨L1, hL1⟩ := ihL b _ g1 hg1
              obtain ⟨L2, hL2⟩ := ihE crest brest _ r h
              refine ⟨["else if (" ++ jsStr cs' ++ ") \x7b"] ++ L1 ++ ["\x7d"] ++ L2, ?_⟩
              rw [hL2]
              simp only [hL1]
              simp
    · intro ss g r h
      cases ss with
      | nil =>
        simp only [genStmtsF, Option.some.injEq, Except.ok.injEq] at h
        exact ⟨[], by rw [← h]; simp⟩
      | cons s rest =>
        simp only [genStmtsF] at h
        split at h
        · exact absurd h (by simp)
        · exact absurd h (by simp)
        · rename_i g1 hg1
          obtain ⟨L1, hL1⟩ := ihS s g g1 hg1
          obtain ⟨L2, hL2⟩ := ihL rest g1 r h
          refine ⟨L1 ++ L2, ?_⟩
          rw [hL2, hL1]
          simp

/-- C8: the FOR case of the generator always emits a three-part counting-loop
header initializing the loop variable to the generated start expression,
bounding it with a strict less-than against the generated end expression, and
incrementing it by one: whatever lines the body walk appends, the lines
emitted for a For node are an optional declaration, exactly that header, the
body lines, and a closing brace. -/
theorem c8_for_emission (fuel : Nat) (name : String) (s e : Expr) (body : List Stmt)
    (g r : GState) (so eo : Option String)
    (hs : genExpr s = Except.ok so) (he : genExpr e = Except.ok eo)
    (hr : genStmtF (fuel+1) (Stmt.forLoop name s e body) g = some (Except.ok r)) :
    ∃ L, r.body = g.body
      ++ (if g.defined.contains name then ([] : List String) else ["int " ++ name ++ ";"])
      ++ ["for (" ++ name ++ " = " ++ jsStr so ++ "; " ++ name ++ " < " ++ jsStr eo
            ++ "; " ++ name ++ "++) \x7b"]
      ++ L ++ ["\x7d"] := by
  simp only [genStmtF, hs, he] at hr
  by_cases hc : g.defined.contains name = true
  · rw [if_pos hc] at hr
    rw [if_pos hc]
    split at hr
    · exact absurd hr (by simp)
    · exact absurd hr (by simp)
    · rename_i g2 hg2
      obtain ⟨L, hL⟩ := (genBody_extends fuel).2.2 body _ g2 hg2
      simp only [Option.some.injEq, Except.ok.injEq] at hr
      refine ⟨L, ?_⟩
      rw [← hr]
      simp [hL]
  · rw [if_neg hc] at hr
    rw [if_neg hc]
    split at hr
    · exact absurd hr (by simp)
    · exact absurd hr (by simp)
    · rename_i g2 hg2
      obtain ⟨L, hL⟩ := (genBody_extends fuel).2.2 body _ g2 hg2
      simp only [Option.some.injEq, Except.ok.injEq] at hr
      refine ⟨L, ?_⟩
      rw [← hr]
      simp [hL]

/-- C8 witness: the theorem applied to a concrete For node over an undeclared
loop variable with literal bounds 0 and 3. -/
theorem c8_for_emission_witness :
    ∃ L, (⟨["int i;", "for (i = 0; i < 3; i++) \x7b", "\x7d"], []⟩ : GState).body =
      ([] : List String)
      ++ (if ([] : List String).contains ("i") then ([] : List String)
          else ["int " ++ "i" ++ ";"])
      ++ ["for (" ++ "i" ++ " = " ++ jsStr (some ("0")) ++ "; " ++ "i" ++ " < "
            ++ jsStr (some ("3")) ++ "; " ++ "i" ++ "++) \x7b"]
      ++ L ++ ["\x7d"] :=
  c8_for_emission 5 ("i") (Expr.tok ⟨"0", some ("NUMBER"), some 1⟩)
    (Expr.tok ⟨"3", some ("NUMBER"), some 1⟩) [] ⟨[], []⟩
    ⟨["int i;", "for (i = 0; i < 3; i++) \x7b", "\x7d"], []⟩
    (some ("0")) (some ("3")) rfl rfl rfl
